import Mathlib

/-!
# Verification of the yadujewels order payment reconciliation core

Shallow embedding of the payment-reconciliation subsystem:

* `src/lib/stockManagement.ts` — `decrementStock` / `restoreStock`
* `src/app/api/razorpay/verify-payment/route.ts` — `POST` (Payment Verifier)
* `src/app/api/razorpay/webhook/route.ts` — `POST`, `handlePaymentCaptured`,
  `handlePaymentFailed` (Webhook Reconciler)
* `src/app/api/razorpay/create-order/route.ts` — `POST` (Payment Intent Initiator)
* `src/app/api/orders/cod/route.ts` — `POST` (cash-on-delivery order creator)

The database is modelled as an explicit state (lists of rows).  Supabase's
`.single()` combinator succeeds exactly when the filtered row set is a
singleton; `.update(...).eq(col, v)` rewrites every row whose column matches.
Database writes are assumed to succeed except where a claim is explicitly
about a write failure (the order-items insert, which both creation handlers
treat as non-fatal); that failure is exposed as an explicit boolean oracle.
External primitives — HMAC-SHA256 (`crypto.createHmac`), JSON parsing
(`JSON.parse`, which throws on malformed input, modelled as `Option`), the
authenticated session user, the gateway SDK call and the current timestamp —
are passed to the handlers as parameters.
-/

namespace Yadu

/-- A row of the `products` table (the fields the reconciliation core touches).
`stock_quantity` is an integer column; the TypeScript `product.stock_quantity || 0`
null-guard is the identity on a non-null integer value. -/
structure Product where
  id : String
  name : String
  stock_quantity : Int
  in_stock : Bool
  deriving Repr, DecidableEq

/-- A row of the `order_items` table. -/
structure OrderItemRow where
  order_id : String
  product_id : String
  product_name : String
  product_image : String
  quantity : Int
  price : Int
  deriving Repr, DecidableEq

/-- The `(product_id, quantity)` pairs handed to the stock-management helpers
(`OrderItem` in `stockManagement.ts`). -/
structure StockItem where
  product_id : String
  quantity : Int
  deriving Repr, DecidableEq

/-- The `payment_metadata` JSON blob: a typed sum of the shapes each write
path stores (per the write sites in the verify route and webhook handlers). -/
inductive PayMeta where
  /-- No metadata written yet (order as created). -/
  | noMeta : PayMeta
  /-- Written by the Verifier on signature mismatch:
  `{verification_failed, razorpay_payment_id, error, timestamp}`. -/
  | verificationFailed (razorpay_payment_id : String) (error : String)
      (timestamp : String) : PayMeta
  /-- Written by the Verifier on success: `{verified_at, verification_method}`. -/
  | verified (verified_at : String) (verification_method : String) : PayMeta
  /-- Written by `handlePaymentCaptured`:
  `{captured_via, captured_at, amount, currency, method, bank, wallet, vpa, contact, email}`. -/
  | capturedWebhook (captured_at : String) (amount : Int) (currency : String)
      (method : String) (bank wallet vpa : Option String)
      (contact email : String) : PayMeta
  /-- Written by `handlePaymentFailed`:
  `{failed_via, failed_at, error_code, error_description, error_reason}`. -/
  | failedWebhook (failed_at : String)
      (error_code error_description error_reason : Option String) : PayMeta
  deriving Repr, DecidableEq

/-- A row of the `orders` table (the columns the reconciliation core reads or
writes).  Nullable text columns are `Option String`. -/
structure Order where
  id : String
  user_id : Option String
  razorpay_order_id : Option String
  razorpay_payment_id : Option String
  razorpay_signature : Option String
  payment_status : Option String
  status : String
  payment_method : String
  total_amount : Int
  payment_metadata : PayMeta
  deriving Repr, DecidableEq

/-- The database state shared by all handlers. -/
structure DB where
  orders : List Order
  orderItems : List OrderItemRow
  products : List Product
  deriving Repr, DecidableEq

/-- Supabase `.single()`: succeeds exactly when the filtered result set is a
singleton row. -/
def single {α : Type} (rows : List α) : Option α :=
  match rows with
  | [a] => some a
  | _ => none

/-- `supabase.from("orders").select(*).eq("id", oid).single()`. -/
def selectOrderById (db : DB) (oid : String) : Option Order :=
  single (db.orders.filter (fun o => o.id = oid))

/-- `supabase.from("orders").select(...).eq("razorpay_order_id", rid).single()`. -/
def selectOrderByRzpId (db : DB) (rid : String) : Option Order :=
  single (db.orders.filter (fun o => o.razorpay_order_id = some rid))

/-- `supabase.from("orders").update(...).eq("id", oid)`: rewrite every order
row whose `id` matches. -/
def updateOrders (db : DB) (oid : String) (f : Order → Order) : DB :=
  { db with orders := db.orders.map (fun o => if o.id = oid then f o else o) }

/-- `supabase.from("order_items").select("product_id, quantity").eq("order_id", oid)`. -/
def selectOrderItems (db : DB) (oid : String) : List OrderItemRow :=
  db.orderItems.filter (fun it => it.order_id = oid)

/-- The `StockUpdateResult` returned by both stock helpers. -/
structure StockUpdateResult where
  success : Bool
  errors : List String
  updatedProducts : List String
  deriving Repr, DecidableEq

/-- Loop body of `decrementStock`: one pass over the remaining items,
threading the products table and the accumulated `errors` / `updatedProducts`
lists.  Per item: fetch the product with `.single()`; on failure push an error
and continue; otherwise clamp `newStock = Math.max(0, currentStock - quantity)`,
derive `isInStock = newStock > 0`, and write both back. -/
def decrementStockGo (products : List Product) (errors updated : List String) :
    List StockItem → List Product × List String × List String
  | [] => (products, errors, updated)
  | item :: rest =>
    match single (products.filter (fun p => p.id = item.product_id)) with
    | none =>
      decrementStockGo products
        (errors ++ ["Product " ++ item.product_id ++ " not found"]) updated rest
    | some p =>
      let currentStock := p.stock_quantity
      let newStock := max 0 (currentStock - item.quantity)
      let isInStock := decide (newStock > 0)
      let products' := products.map (fun q =>
        if q.id = item.product_id then
          { q with stock_quantity := newStock, in_stock := isInStock }
        else q)
      decrementStockGo products' errors (updated ++ [item.product_id]) rest

/-- `decrementStock(supabase, items)` from `stockManagement.ts`, acting on the
products table; returns the updated table together with the
`StockUpdateResult` (`success: errors.length === 0`). -/
def decrementStock (products : List Product) (items : List StockItem) :
    List Product × StockUpdateResult :=
  let r := decrementStockGo products [] [] items
  (r.1, { success := r.2.1.isEmpty, errors := r.2.1, updatedProducts := r.2.2 })

/-- Loop body of `restoreStock`: like `decrementStockGo` but
`newStock = currentStock + quantity` and the written flag is the constant
`in_stock: true` (source comment: "If we're restoring stock, product is now
in stock"). -/
def restoreStockGo (products : List Product) (errors updated : List String) :
    List StockItem → List Product × List String × List String
  | [] => (products, errors, updated)
  | item :: rest =>
    match single (products.filter (fun p => p.id = item.product_id)) with
    | none =>
      restoreStockGo products
        (errors ++ ["Product " ++ item.product_id ++ " not found"]) updated rest
    | some p =>
      let currentStock := p.stock_quantity
      let newStock := currentStock + item.quantity
      let products' := products.map (fun q =>
        if q.id = item.product_id then
          { q with stock_quantity := newStock, in_stock := true }
        else q)
      restoreStockGo products' errors (updated ++ [item.product_id]) rest

/-- `restoreStock(supabase, items)` from `stockManagement.ts`. -/
def restoreStock (products : List Product) (items : List StockItem) :
    List Product × StockUpdateResult :=
  let r := restoreStockGo products [] [] items
  (r.1, { success := r.2.1.isEmpty, errors := r.2.1, updatedProducts := r.2.2 })

/-! ## HTTP responses

`NextResponse.json(body, {status})` with the body fields the route handlers
actually emit (`error`, `success`, `message`, `order_id`, `received`).
`status` defaults to 200 as in `NextResponse.json`. -/

structure ApiResponse where
  status : Nat := 200
  success : Bool := false
  received : Bool := false
  error : Option String := none
  message : Option String := none
  order_id : Option String := none
  deriving Repr, DecidableEq

/-- `NextResponse.json({error}, {status})`. -/
def errResponse (status : Nat) (msg : String) : ApiResponse :=
  { status := status, error := some msg }

/-! ## Payment Verifier — `verify-payment/route.ts` `POST` -/

/-- The request body `VerifyPaymentRequest`.  The route treats a missing field
and an empty string the same (`!field`), so fields are plain strings with `""`
standing for absent. -/
structure VerifyRequest where
  razorpay_order_id : String
  razorpay_payment_id : String
  razorpay_signature : String
  order_id : String
  deriving Repr, DecidableEq

/-- The update object the Verifier passes to `.update(...)` on signature
mismatch. -/
def verifyFailedRow (req : VerifyRequest) (now : String) (o : Order) : Order :=
  { o with payment_status := some "failed",
           payment_metadata := .verificationFailed req.razorpay_payment_id
             "Signature verification failed" now }

/-- The update object the Verifier passes to `.update(...)` on success. -/
def verifiedRow (req : VerifyRequest) (now : String) (o : Order) : Order :=
  { o with razorpay_payment_id := some req.razorpay_payment_id,
           razorpay_signature := some req.razorpay_signature,
           payment_status := some "paid",
           status := "processing",
           payment_metadata := .verified now "signature" }

/-- The `(product_id, quantity)` projection both stock-decrement call sites
apply to the fetched order-items rows. -/
def toStockItems (items : List OrderItemRow) : List StockItem :=
  items.map (fun it => { product_id := it.product_id, quantity := it.quantity })

/-- The Payment Verifier (`verify-payment/route.ts` `POST`), with the external
primitives passed in: `hmac secret message` models
`crypto.createHmac("sha256", secret).update(message).digest("hex")`;
`keySecret` is `RAZORPAY_KEY_SECRET`; `user` is the authenticated session user
id (`none` = no valid session); `now` is the current ISO timestamp.
Returns the new database state and the HTTP response. -/
def verifyPaymentPOST (hmac : String → String → String) (keySecret : String)
    (user : Option String) (now : String) (db : DB) (req : VerifyRequest) :
    DB × ApiResponse :=
  match user with
  | none => (db, errResponse 401 "Unauthorized")
  | some uid =>
    if req.razorpay_order_id = "" ∨ req.razorpay_payment_id = "" ∨
        req.razorpay_signature = "" ∨ req.order_id = "" then
      (db, errResponse 400 "Missing required payment details")
    else
      match selectOrderById db req.order_id with
      | none => (db, errResponse 404 "Order not found")
      | some order =>
        if order.user_id ≠ some uid then
          (db, errResponse 403 "Unauthorized access to order")
        else if order.razorpay_order_id ≠ some req.razorpay_order_id then
          (db, errResponse 400 "Order ID mismatch")
        else if order.payment_status = some "paid" then
          -- Idempotency: already verified, return success without re-processing
          (db, { status := 200, success := true,
                 message := some "Payment already verified",
                 order_id := some req.order_id })
        else
          let expectedSignature :=
            hmac keySecret (req.razorpay_order_id ++ "|" ++ req.razorpay_payment_id)
          if expectedSignature ≠ req.razorpay_signature then
            -- Signature mismatch: persist failed status + metadata, 400
            (updateOrders db req.order_id (verifyFailedRow req now),
             errResponse 400 "Payment verification failed")
          else
            -- State transition pending -> paid, then decrement stock
            let db1 := updateOrders db req.order_id (verifiedRow req now)
            let items := selectOrderItems db1 req.order_id
            let db2 :=
              if items.isEmpty then db1
              else
                { db1 with products :=
                    (decrementStock db1.products (toStockItems items)).1 }
            (db2, { status := 200, success := true,
                    message := some "Payment verified successfully",
                    order_id := some req.order_id })

/-! ## Webhook Reconciler — `webhook/route.ts` -/

/-- `payload.payment.entity` of `RazorpayWebhookPayload` (the fields the
handlers read). -/
structure PaymentEntity where
  id : String
  amount : Int
  currency : String
  order_id : String
  method : String
  bank : Option String
  wallet : Option String
  vpa : Option String
  error_code : Option String
  error_description : Option String
  error_reason : Option String
  contact : String
  email : String
  deriving Repr, DecidableEq

/-- A parsed `RazorpayWebhookPayload` (the fields the handlers read):
the event name and the optional payment entity. -/
structure WebhookPayload where
  event : String
  payment : Option PaymentEntity
  deriving Repr, DecidableEq

/-- The update object `handlePaymentCaptured` passes to `.update(...)`:
state transition to `paid`/`processing` with the payment method
(`payment.method || "razorpay"`) and captured metadata. -/
def capturedRow (payment : PaymentEntity) (now : String) (o : Order) : Order :=
  { o with razorpay_payment_id := some payment.id,
           payment_status := some "paid",
           status := "processing",
           payment_method :=
             if payment.method = "" then "razorpay" else payment.method,
           payment_metadata := .capturedWebhook now payment.amount
             payment.currency payment.method payment.bank payment.wallet
             payment.vpa payment.contact payment.email }

/-- The update object `handlePaymentFailed` passes to `.update(...)`:
state transition to `failed` with error metadata from the payload. -/
def webhookFailedRow (payment : PaymentEntity) (now : String) (o : Order) : Order :=
  { o with payment_status := some "failed",
           payment_metadata := .failedWebhook now payment.error_code
             payment.error_description payment.error_reason }

/-- `handlePaymentCaptured`: look the order up by `razorpay_order_id`; skip if
absent or already `paid`; otherwise transition to `paid`/`processing`, record
payment method and captured metadata, then decrement stock over the order's
items. -/
def handlePaymentCaptured (now : String) (db : DB) (payload : WebhookPayload) : DB :=
  match payload.payment with
  | none => db
  | some payment =>
    match selectOrderByRzpId db payment.order_id with
    | none => db
    | some order =>
      if order.payment_status = some "paid" then db
      else
        let db1 := updateOrders db order.id (capturedRow payment now)
        let items := selectOrderItems db1 order.id
        if items.isEmpty then db1
        else
          { db1 with products :=
              (decrementStock db1.products (toStockItems items)).1 }

/-- `handlePaymentFailed`: look the order up by `razorpay_order_id`; skip if
absent; never downgrade a `paid` order; otherwise transition to `failed` with
error metadata from the payload. -/
def handlePaymentFailed (now : String) (db : DB) (payload : WebhookPayload) : DB :=
  match payload.payment with
  | none => db
  | some payment =>
    match selectOrderByRzpId db payment.order_id with
    | none => db
    | some order =>
      if order.payment_status = some "paid" then db
      else
        updateOrders db order.id (webhookFailedRow payment now)

/-- The webhook `POST` handler.  `hmac` is as in `verifyPaymentPOST`;
`webhookSecret` is `RAZORPAY_WEBHOOK_SECRET` (`none` = unset); `parse` models
`JSON.parse` on the raw body (`none` = it throws, which the route's `catch`
turns into a 200 acknowledgment with an error note).  The signature
comparison models `crypto.timingSafeEqual` on the hex digests, which is
byte-for-byte equality (a length mismatch throws and is caught as `false`). -/
def webhookPOST (hmac : String → String → String)
    (parse : String → Option WebhookPayload) (webhookSecret : Option String)
    (now : String) (db : DB) (rawBody : String) (signatureHeader : Option String) :
    DB × ApiResponse :=
  match signatureHeader with
  | none => (db, errResponse 400 "Missing signature")
  | some signature =>
    match webhookSecret with
    | none => (db, errResponse 500 "Webhook not configured")
    | some secret =>
      if hmac secret rawBody ≠ signature then
        (db, errResponse 400 "Invalid signature")
      else
        match parse rawBody with
        | none =>
          -- JSON.parse threw: caught, acknowledged with 200 to prevent retries
          (db, { status := 200, received := true, error := some "Processing error" })
        | some payload =>
          let db' :=
            if payload.event = "payment.captured" ∨ payload.event = "order.paid" then
              handlePaymentCaptured now db payload
            else if payload.event = "payment.failed" then
              handlePaymentFailed now db payload
            else db
          (db', { status := 200, received := true })

/-! ## Payment Intent Initiator — `create-order/route.ts` — and the
cash-on-delivery creator — `orders/cod/route.ts` -/

/-- A cart line item of `CreateOrderRequest` / `CreateCODOrderRequest`. -/
structure CartItem where
  product_id : String
  product_name : String
  product_image : String
  quantity : Int
  price : Int
  deriving Repr, DecidableEq

/-- The `shipping_address` object.  The routes only test `fullName` and
`phone` for truthiness, so `""` stands for a missing field. -/
structure ShippingAddress where
  fullName : String
  phone : String
  address : String
  city : String
  state : String
  pincode : String
  deriving Repr, DecidableEq

/-- The request body shared (field-for-field) by `CreateOrderRequest` and
`CreateCODOrderRequest`.  `shipping_address = none` models an absent object
(`!shipping_address`); `total_amount ≤ 0` subsumes the falsy test
`!total_amount || total_amount <= 0` for an integer amount. -/
structure CreateOrderRequest where
  items : List CartItem
  total_amount : Int
  shipping_address : Option ShippingAddress
  notes : Option String
  deriving Repr, DecidableEq

/-- The order-items rows both creation routes build from the request items. -/
def mkOrderItems (oid : String) (items : List CartItem) : List OrderItemRow :=
  items.map (fun it =>
    { order_id := oid, product_id := it.product_id,
      product_name := it.product_name, product_image := it.product_image,
      quantity := it.quantity, price := it.price })

/-- The shared request validation prefix of both creation routes
(cart non-empty, positive amount, recipient name and phone present);
returns the rejection response if any gate fails. -/
def validateCreateRequest (req : CreateOrderRequest) : Option ApiResponse :=
  if req.items.isEmpty then some (errResponse 400 "Cart is empty")
  else if req.total_amount ≤ 0 then some (errResponse 400 "Invalid total amount")
  else
    match req.shipping_address with
    | none => some (errResponse 400 "Shipping address is required")
    | some addr =>
      if addr.fullName = "" ∨ addr.phone = "" then
        some (errResponse 400 "Shipping address is required")
      else none

/-- The Payment Intent Initiator (`create-order/route.ts` `POST`).
`user` is the authenticated session user (`none` = 401);
`gatewayOrderId` is the outcome of `razorpay.orders.create` (`none` = the SDK
call threw, which the route's `catch` turns into a 500 — before any database
write); `freshId` is the id the database assigns to the inserted order row;
`itemsInsertFails : Bool` exposes the one write failure the route explicitly
tolerates (order-items insert — "Don't fail the whole order"). -/
def createOrderPOST (user : Option String) (gatewayOrderId : Option String)
    (itemsInsertFails : Bool) (freshId : String) (db : DB)
    (req : CreateOrderRequest) : DB × ApiResponse :=
  match user with
  | none => (db, errResponse 401 "Unauthorized. Please sign in to continue.")
  | some uid =>
    match validateCreateRequest req with
    | some rejection => (db, rejection)
    | none =>
      match gatewayOrderId with
      | none => (db, errResponse 500 "Internal server error")
      | some rzpId =>
        let newOrder : Order :=
          { id := freshId, user_id := some uid,
            razorpay_order_id := some rzpId,
            razorpay_payment_id := none, razorpay_signature := none,
            payment_status := some "pending", status := "pending",
            payment_method := "razorpay", total_amount := req.total_amount,
            payment_metadata := .noMeta }
        let db1 := { db with orders := db.orders ++ [newOrder] }
        let db2 :=
          if itemsInsertFails then db1
          else { db1 with
                 orderItems := db1.orderItems ++ mkOrderItems freshId req.items }
        (db2, { status := 200, success := true, order_id := some freshId })

/-- The configured COD ceiling (`COD_LIMIT` in `orders/cod/route.ts`). -/
def COD_LIMIT : Int := 50000

/-- The cash-on-delivery order creator (`orders/cod/route.ts` `POST`):
same validation prefix plus the COD ceiling, then the order insert, the
(non-fatal) order-items insert, and an immediate stock decrement over the
submitted items. -/
def codPOST (user : Option String) (itemsInsertFails : Bool) (freshId : String)
    (db : DB) (req : CreateOrderRequest) : DB × ApiResponse :=
  match user with
  | none => (db, errResponse 401 "Unauthorized. Please sign in to continue.")
  | some uid =>
    match validateCreateRequest req with
    | some rejection => (db, rejection)
    | none =>
      if req.total_amount > COD_LIMIT then
        (db, errResponse 400 "Cash on Delivery is available only for orders up to the limit")
      else
        let newOrder : Order :=
          { id := freshId, user_id := some uid,
            razorpay_order_id := none,
            razorpay_payment_id := none, razorpay_signature := none,
            payment_status := some "pending", status := "pending",
            payment_method := "cod", total_amount := req.total_amount,
            payment_metadata := .noMeta }
        let db1 := { db with orders := db.orders ++ [newOrder] }
        let db2 :=
          if itemsInsertFails then db1
          else { db1 with
                 orderItems := db1.orderItems ++ mkOrderItems freshId req.items }
        let db3 :=
          { db2 with products :=
              (decrementStock db2.products (req.items.map (fun it =>
                { product_id := it.product_id, quantity := it.quantity }))).1 }
        (db3, { status := 200, success := true, order_id := some freshId,
                message := some "Order placed successfully! Pay on delivery." })

/-- Every order row with the given id has `payment_status = 'paid'` (the
terminal-state predicate of the payment state machine). -/
abbrev orderPaid (db : DB) (oid : String) : Prop :=
  ∀ o ∈ db.orders, o.id = oid → o.payment_status = some "paid"

/-! ## Concrete fixtures (used to instantiate the theorems below) -/

/-- A deterministic stand-in for the external HMAC-SHA256 primitive, used to
instantiate theorems that hold for every `hmac` function. -/
def hmacModel (secret msg : String) : String :=
  "hmac(" ++ secret ++ "," ++ msg ++ ")"

/-- A raw-body parser that always fails (a malformed JSON body). -/
def parseNone : String → Option WebhookPayload := fun _ => none

/-- A pending gateway order fixture. -/
def orderW : Order :=
  { id := "ord1", user_id := some "user1", razorpay_order_id := some "rzp1",
    razorpay_payment_id := none, razorpay_signature := none,
    payment_status := some "pending", status := "pending",
    payment_method := "razorpay", total_amount := 100,
    payment_metadata := .noMeta }

/-- The same order after payment was confirmed. -/
def paidOrderW : Order :=
  { orderW with payment_status := some "paid", status := "processing" }

/-- A product fixture with five units in stock. -/
def productW : Product :=
  { id := "prod1", name := "Ring", stock_quantity := 5, in_stock := true }

/-- An order-items row fixture: two units of `prod1` for `ord1`. -/
def itemRowW : OrderItemRow :=
  { order_id := "ord1", product_id := "prod1", product_name := "Ring",
    product_image := "img", quantity := 2, price := 50 }

/-- Database with the pending order. -/
def dbPendingW : DB :=
  { orders := [orderW], orderItems := [itemRowW], products := [productW] }

/-- Database with the already-paid order. -/
def dbPaidW : DB :=
  { orders := [paidOrderW], orderItems := [itemRowW], products := [productW] }

/-- A verify request carrying the signature `hmacModel` assigns to
`"rzp1|pay1"` under the key secret `"secret"`. -/
def reqW : VerifyRequest :=
  { razorpay_order_id := "rzp1", razorpay_payment_id := "pay1",
    razorpay_signature := hmacModel "secret" "rzp1|pay1", order_id := "ord1" }

/-- The same verify request with a forged signature. -/
def reqBadW : VerifyRequest :=
  { reqW with razorpay_signature := "forged" }

/-- A payment entity fixture matching `orderW`'s gateway intent id. -/
def paymentW : PaymentEntity :=
  { id := "pay1", amount := 100, currency := "INR", order_id := "rzp1",
    method := "card", bank := none, wallet := none, vpa := none,
    error_code := some "BAD_REQUEST_ERROR",
    error_description := some "declined", error_reason := some "issuer",
    contact := "c", email := "e" }

/-- A `payment.captured` webhook payload fixture. -/
def payloadCapturedW : WebhookPayload :=
  { event := "payment.captured", payment := some paymentW }

/-- A `payment.failed` webhook payload fixture. -/
def payloadFailedW : WebhookPayload :=
  { event := "payment.failed", payment := some paymentW }

/-- A raw-body parser that yields the captured payload (a well-formed body). -/
def parseCapturedW : String → Option WebhookPayload :=
  fun _ => some payloadCapturedW

/-- A cart line-item fixture. -/
def cartItemW : CartItem :=
  { product_id := "prod1", product_name := "Ring", product_image := "img",
    quantity := 2, price := 50 }

/-- A shipping-address fixture with the required fields present. -/
def addressW : ShippingAddress :=
  { fullName := "A B", phone := "9990001111", address := "addr",
    city := "c", state := "s", pincode := "110001" }

/-- A valid creation request fixture. -/
def createReqW : CreateOrderRequest :=
  { items := [cartItemW], total_amount := 100,
    shipping_address := some addressW, notes := none }

/-- The same request with an amount above the COD ceiling. -/
def codBigReqW : CreateOrderRequest :=
  { createReqW with total_amount := 60000 }

/-! ## Basic lemmas about the database combinators -/

lemma single_eq_some {α : Type} {l : List α} {a : α} (h : single l = some a) :
    l = [a] := by
  match l with
  | [] => simp [single] at h
  | [x] => simp [single] at h; simp [h]
  | x :: y :: ys => simp [single] at h

lemma single_filter {α : Type} {l : List α} {p : α → Bool} {a : α}
    (h : single (l.filter p) = some a) : a ∈ l ∧ p a = true := by
  have hl := single_eq_some h
  have ha : a ∈ l.filter p := by rw [hl]; exact List.mem_singleton_self a
  exact List.mem_filter.mp ha

lemma single_map {α : Type} (l : List α) (f : α → α) :
    single (l.map f) = (single l).map f := by
  match l with
  | [] => rfl
  | [x] => rfl
  | x :: y :: ys => rfl

lemma filter_map_comm {α : Type} (l : List α) (f : α → α) (p : α → Bool)
    (hp : ∀ a, p (f a) = p a) : (l.map f).filter p = (l.filter p).map f := by
  induction l with
  | nil => rfl
  | cons x xs ih =>
    simp only [List.map_cons, List.filter_cons, hp x]
    cases hpx : p x <;> simp [hpx, ih]

/-- Order-row updates that preserve the `id` column commute with lookup by id. -/
lemma selectOrderById_updateOrders (db : DB) (tid : String) (g : Order → Order)
    (oid : String) (hg : ∀ o, (g o).id = o.id) :
    selectOrderById (updateOrders db tid g) oid =
      (selectOrderById db oid).map (fun o => if o.id = tid then g o else o) := by
  unfold selectOrderById updateOrders
  rw [filter_map_comm _ _ _ (fun o => by by_cases h : o.id = tid <;> simp [h, hg o])]
  exact single_map _ _

/-- Order-row updates that preserve the `razorpay_order_id` column commute
with lookup by gateway intent id. -/
lemma selectOrderByRzpId_updateOrders (db : DB) (tid : String) (g : Order → Order)
    (rid : String) (hg : ∀ o, (g o).razorpay_order_id = o.razorpay_order_id) :
    selectOrderByRzpId (updateOrders db tid g) rid =
      (selectOrderByRzpId db rid).map (fun o => if o.id = tid then g o else o) := by
  unfold selectOrderByRzpId updateOrders
  rw [filter_map_comm _ _ _ (fun o => by by_cases h : o.id = tid <;> simp [h, hg o])]
  exact single_map _ _

/-! ## The paid-monotonicity invariant -/

lemma orderPaid_congr_orders {db db' : DB} {oid : String}
    (horders : db'.orders = db.orders) (h : orderPaid db oid) :
    orderPaid db' oid := by
  intro o ho
  exact h o (horders ▸ ho)

lemma orderPaid_update_ne {db : DB} {oid tid : String} {g : Order → Order}
    (h : orderPaid db oid) (hg : ∀ o, (g o).id = o.id) (hne : tid ≠ oid) :
    orderPaid (updateOrders db tid g) oid := by
  intro o' ho' hid
  simp only [updateOrders, List.mem_map] at ho'
  obtain ⟨o, ho, rfl⟩ := ho'
  by_cases hot : o.id = tid
  · rw [if_pos hot] at hid
    rw [hg o, hot] at hid
    exact absurd hid hne
  · rw [if_neg hot] at hid ⊢
    exact h o ho hid

/-- Replacing (or conditionally replacing) the products table does not affect
the order rows, hence preserves `orderPaid`. -/
lemma orderPaid_if_products {c : Prop} [Decidable c] {db1 : DB}
    {P : List Product} {oid : String} (h : orderPaid db1 oid) :
    orderPaid (if c then db1 else { db1 with products := P }) oid := by
  split
  · exact h
  · exact fun o ho => h o ho

lemma orderPaid_update_setPaid {db : DB} {oid tid : String} {g : Order → Order}
    (h : orderPaid db oid) (hg : ∀ o, (g o).payment_status = some "paid") :
    orderPaid (updateOrders db tid g) oid := by
  intro o' ho' hid
  simp only [updateOrders, List.mem_map] at ho'
  obtain ⟨o, ho, rfl⟩ := ho'
  by_cases hot : o.id = tid
  · rw [if_pos hot]
    exact hg o
  · rw [if_neg hot] at hid ⊢
    exact h o ho hid

/-- After an update that writes `payment_status = 'paid'` into every row with
the target id, every row with that id is paid (no hypothesis on the initial
table). -/
lemma orderPaid_updateOrders_target {db : DB} {oid : String} {g : Order → Order}
    (hg : ∀ o, (g o).payment_status = some "paid") :
    orderPaid (updateOrders db oid g) oid := by
  intro o' ho' hid'
  simp only [updateOrders, List.mem_map] at ho'
  obtain ⟨a, ha, rfl⟩ := ho'
  by_cases hai : a.id = oid
  · rw [if_pos hai]
    exact hg a
  · rw [if_neg hai] at hid' ⊢
    exact absurd hid' hai

lemma DB_if_products_orders {c : Prop} [Decidable c] (db1 : DB)
    (P : List Product) :
    (if c then db1 else { db1 with products := P }).orders = db1.orders := by
  split <;> rfl

lemma DB_if_products_orderItems {c : Prop} [Decidable c] (db1 : DB)
    (P : List Product) :
    (if c then db1 else { db1 with products := P }).orderItems = db1.orderItems := by
  split <;> rfl

lemma DB_if_products_products {c : Prop} [Decidable c] (db1 : DB)
    (P : List Product) :
    (if c then db1 else { db1 with products := P }).products =
      if c then db1.products else P := by
  split <;> simp_all

/-- The Payment Verifier never turns a `paid` order row into anything else. -/
lemma verify_preserves_paid (hmac : String → String → String) (keySecret : String)
    (user : Option String) (now : String) (db : DB) (req : VerifyRequest)
    (oid : String) (h : orderPaid db oid) :
    orderPaid (verifyPaymentPOST hmac keySecret user now db req).1 oid := by
  unfold verifyPaymentPOST
  split
  · exact h
  next uid =>
    split
    · exact h
    split
    · exact h
    next order hord =>
      split
      · exact h
      split
      · exact h
      split
      · exact h
      next hpaid =>
        dsimp only
        split
        next hsig =>
          -- failure write: targets an order that is not paid, so its id
          -- cannot be `oid` when every `oid` row is paid
          refine orderPaid_update_ne h (fun o => rfl) (fun hEq => ?_)
          obtain ⟨hmem, hpred⟩ := single_filter hord
          have hordid : order.id = req.order_id := by simpa using hpred
          exact hpaid (h order hmem (by rw [hordid, hEq]))
        next hsig =>
          dsimp only
          refine orderPaid_if_products
            (orderPaid_update_setPaid h (fun o => ?_))
          rfl

/-- `handlePaymentCaptured` never turns a `paid` order row into anything else. -/
lemma captured_preserves_paid (now : String) (db : DB) (payload : WebhookPayload)
    (oid : String) (h : orderPaid db oid) :
    orderPaid (handlePaymentCaptured now db payload) oid := by
  unfold handlePaymentCaptured
  split
  · exact h
  next payment hp =>
    split
    · exact h
    next order hord =>
      split
      · exact h
      next hpaid =>
        dsimp only
        refine orderPaid_if_products
          (orderPaid_update_setPaid h (fun o => ?_))
        rfl

/-- `handlePaymentFailed` never turns a `paid` order row into anything else. -/
lemma failed_preserves_paid (now : String) (db : DB) (payload : WebhookPayload)
    (oid : String) (h : orderPaid db oid) :
    orderPaid (handlePaymentFailed now db payload) oid := by
  unfold handlePaymentFailed
  split
  · exact h
  next payment hp =>
    split
    · exact h
    next order hord =>
      split
      · exact h
      next hpaid =>
        refine orderPaid_update_ne h (fun o => rfl) (fun hEq => ?_)
        obtain ⟨hmem, _⟩ := single_filter hord
        exact hpaid (h order hmem hEq)

/-- A `payment.failed` webhook for an order that is already `paid` leaves the
whole database unchanged (no failure metadata is written). -/
lemma failed_noop_on_paid (now : String) (db : DB) (payload : WebhookPayload)
    (payment : PaymentEntity) (order : Order)
    (hp : payload.payment = some payment)
    (hord : selectOrderByRzpId db payment.order_id = some order)
    (hpaid : order.payment_status = some "paid") :
    handlePaymentFailed now db payload = db := by
  unfold handlePaymentFailed
  rw [hp]
  dsimp only
  rw [hord]
  dsimp only
  rw [if_pos hpaid]

/-- The whole webhook route never turns a `paid` order row into anything else. -/
lemma webhook_preserves_paid (hmac : String → String → String)
    (parse : String → Option WebhookPayload) (webhookSecret : Option String)
    (now : String) (db : DB) (rawBody : String) (signatureHeader : Option String)
    (oid : String) (h : orderPaid db oid) :
    orderPaid (webhookPOST hmac parse webhookSecret now db rawBody
      signatureHeader).1 oid := by
  unfold webhookPOST
  split
  · exact h
  next signature =>
    split
    · exact h
    next secret =>
      split
      · exact h
      next hsig =>
        split
        · exact h
        next payload hparse =>
          dsimp only
          split
          · exact captured_preserves_paid now db payload oid h
          · split
            · exact failed_preserves_paid now db payload oid h
            · exact h

/-! ## Field and congruence lemmas -/

@[simp] lemma verifiedRow_id (req : VerifyRequest) (now : String) (o : Order) :
    (verifiedRow req now o).id = o.id := rfl

@[simp] lemma verifiedRow_user_id (req : VerifyRequest) (now : String) (o : Order) :
    (verifiedRow req now o).user_id = o.user_id := rfl

@[simp] lemma verifiedRow_rzp (req : VerifyRequest) (now : String) (o : Order) :
    (verifiedRow req now o).razorpay_order_id = o.razorpay_order_id := rfl

@[simp] lemma verifiedRow_payment_status (req : VerifyRequest) (now : String)
    (o : Order) : (verifiedRow req now o).payment_status = some "paid" := rfl

@[simp] lemma capturedRow_id (payment : PaymentEntity) (now : String) (o : Order) :
    (capturedRow payment now o).id = o.id := rfl

@[simp] lemma capturedRow_rzp (payment : PaymentEntity) (now : String) (o : Order) :
    (capturedRow payment now o).razorpay_order_id = o.razorpay_order_id := rfl

@[simp] lemma capturedRow_user_id (payment : PaymentEntity) (now : String)
    (o : Order) : (capturedRow payment now o).user_id = o.user_id := rfl

@[simp] lemma capturedRow_payment_status (payment : PaymentEntity) (now : String)
    (o : Order) : (capturedRow payment now o).payment_status = some "paid" := rfl

@[simp] lemma verifiedRow_status (req : VerifyRequest) (now : String) (o : Order) :
    (verifiedRow req now o).status = "processing" := rfl

@[simp] lemma capturedRow_status (payment : PaymentEntity) (now : String)
    (o : Order) : (capturedRow payment now o).status = "processing" := rfl

@[simp] lemma verifyFailedRow_id (req : VerifyRequest) (now : String) (o : Order) :
    (verifyFailedRow req now o).id = o.id := rfl

@[simp] lemma updateOrders_orders (db : DB) (oid : String) (f : Order → Order) :
    (updateOrders db oid f).orders =
      db.orders.map (fun o => if o.id = oid then f o else o) := rfl

lemma selectOrderById_congr {db db' : DB} (oid : String)
    (h : db.orders = db'.orders) :
    selectOrderById db oid = selectOrderById db' oid := by
  unfold selectOrderById
  rw [h]

lemma selectOrderByRzpId_congr {db db' : DB} (rid : String)
    (h : db.orders = db'.orders) :
    selectOrderByRzpId db rid = selectOrderByRzpId db' rid := by
  unfold selectOrderByRzpId
  rw [h]

@[simp] lemma updateOrders_orderItems (db : DB) (oid : String) (f : Order → Order) :
    (updateOrders db oid f).orderItems = db.orderItems := rfl

@[simp] lemma updateOrders_products (db : DB) (oid : String) (f : Order → Order) :
    (updateOrders db oid f).products = db.products := rfl

@[simp] lemma selectOrderItems_updateOrders (db : DB) (tid : String)
    (f : Order → Order) (oid : String) :
    selectOrderItems (updateOrders db tid f) oid = selectOrderItems db oid := rfl

/-! ## Path characterizations of the Verifier and the webhook handlers -/

/-- The row update the Verifier writes on a successful verification. -/
lemma verify_valid_eq (hmac : String → String → String) (keySecret : String)
    (uid now : String) (db : DB) (req : VerifyRequest) (order : Order)
    (hfields : ¬(req.razorpay_order_id = "" ∨ req.razorpay_payment_id = "" ∨
      req.razorpay_signature = "" ∨ req.order_id = ""))
    (hord : selectOrderById db req.order_id = some order)
    (howner : order.user_id = some uid)
    (hrzp : order.razorpay_order_id = some req.razorpay_order_id)
    (hnotpaid : ¬order.payment_status = some "paid")
    (hsig : hmac keySecret (req.razorpay_order_id ++ "|" ++ req.razorpay_payment_id) =
      req.razorpay_signature) :
    verifyPaymentPOST hmac keySecret (some uid) now db req =
      ((if (selectOrderItems db req.order_id).isEmpty then
          updateOrders db req.order_id (verifiedRow req now)
        else
          { updateOrders db req.order_id (verifiedRow req now) with
            products := (decrementStock db.products
              (toStockItems (selectOrderItems db req.order_id))).1 }),
       { status := 200, success := true,
         message := some "Payment verified successfully",
         order_id := some req.order_id }) := by
  unfold verifyPaymentPOST
  dsimp only
  rw [if_neg hfields, hord]
  dsimp only
  rw [if_neg (not_not_intro howner), if_neg (not_not_intro hrzp),
    if_neg hnotpaid, if_neg (not_not_intro hsig)]
  rfl

/-- The row update and 400 response the Verifier produces on a signature
mismatch. -/
lemma verify_invalid_eq (hmac : String → String → String) (keySecret : String)
    (uid now : String) (db : DB) (req : VerifyRequest) (order : Order)
    (hfields : ¬(req.razorpay_order_id = "" ∨ req.razorpay_payment_id = "" ∨
      req.razorpay_signature = "" ∨ req.order_id = ""))
    (hord : selectOrderById db req.order_id = some order)
    (howner : order.user_id = some uid)
    (hrzp : order.razorpay_order_id = some req.razorpay_order_id)
    (hnotpaid : ¬order.payment_status = some "paid")
    (hsig : hmac keySecret (req.razorpay_order_id ++ "|" ++ req.razorpay_payment_id) ≠
      req.razorpay_signature) :
    verifyPaymentPOST hmac keySecret (some uid) now db req =
      (updateOrders db req.order_id (verifyFailedRow req now),
       errResponse 400 "Payment verification failed") := by
  unfold verifyPaymentPOST
  dsimp only
  rw [if_neg hfields, hord]
  dsimp only
  rw [if_neg (not_not_intro howner), if_neg (not_not_intro hrzp),
    if_neg hnotpaid, if_pos hsig]

/-- The Verifier's idempotency short-circuit: an order already `paid` yields
an immediate success response and no state change, for every HMAC function
and every submitted signature. -/
lemma verify_already_paid (hmac : String → String → String) (keySecret : String)
    (uid now : String) (db : DB) (req : VerifyRequest) (order : Order)
    (hfields : ¬(req.razorpay_order_id = "" ∨ req.razorpay_payment_id = "" ∨
      req.razorpay_signature = "" ∨ req.order_id = ""))
    (hord : selectOrderById db req.order_id = some order)
    (howner : order.user_id = some uid)
    (hrzp : order.razorpay_order_id = some req.razorpay_order_id)
    (hpaid : order.payment_status = some "paid") :
    verifyPaymentPOST hmac keySecret (some uid) now db req =
      (db, { status := 200, success := true,
             message := some "Payment already verified",
             order_id := some req.order_id }) := by
  unfold verifyPaymentPOST
  dsimp only
  rw [if_neg hfields, hord]
  dsimp only
  rw [if_neg (not_not_intro howner), if_neg (not_not_intro hrzp), if_pos hpaid]

/-- The row update `handlePaymentCaptured` applies when the order is found
and not yet paid. -/
lemma captured_eq (now : String) (db : DB) (payload : WebhookPayload)
    (payment : PaymentEntity) (order : Order)
    (hp : payload.payment = some payment)
    (hord : selectOrderByRzpId db payment.order_id = some order)
    (hnotpaid : ¬order.payment_status = some "paid") :
    handlePaymentCaptured now db payload =
      (if (selectOrderItems db order.id).isEmpty then
        updateOrders db order.id (capturedRow payment now)
      else
        { updateOrders db order.id (capturedRow payment now) with
          products := (decrementStock db.products
            (toStockItems (selectOrderItems db order.id))).1 }) := by
  unfold handlePaymentCaptured
  rw [hp]
  dsimp only
  rw [hord]
  dsimp only
  rw [if_neg hnotpaid]
  rfl

/-- `handlePaymentCaptured` on an order that is already `paid` is a no-op. -/
lemma captured_noop_on_paid (now : String) (db : DB) (payload : WebhookPayload)
    (payment : PaymentEntity) (order : Order)
    (hp : payload.payment = some payment)
    (hord : selectOrderByRzpId db payment.order_id = some order)
    (hpaid : order.payment_status = some "paid") :
    handlePaymentCaptured now db payload = db := by
  unfold handlePaymentCaptured
  rw [hp]
  dsimp only
  rw [hord]
  dsimp only
  rw [if_pos hpaid]

/-- A validly signed, parseable `payment.captured` webhook dispatches to
`handlePaymentCaptured` and is acknowledged with 200. -/
lemma webhookPOST_captured (hmac : String → String → String)
    (parse : String → Option WebhookPayload) (secret now : String) (db : DB)
    (rawBody signature : String) (payload : WebhookPayload)
    (hsig : hmac secret rawBody = signature)
    (hparse : parse rawBody = some payload)
    (hev : payload.event = "payment.captured") :
    webhookPOST hmac parse (some secret) now db rawBody (some signature) =
      (handlePaymentCaptured now db payload,
       { status := 200, received := true }) := by
  unfold webhookPOST
  dsimp only
  rw [if_neg (not_not_intro hsig), hparse]
  dsimp only
  rw [if_pos (Or.inl hev)]

/-! ## Lemmas about the stock helpers -/

/-- Every product row in the table after a `decrementStock` pass is either
untouched or carries a clamped non-negative stock with the derived
`in_stock = newStock > 0` flag. -/
lemma decrementStockGo_mem (items : List StockItem) :
    ∀ (products : List Product) (errors updated : List String) (p' : Product),
      p' ∈ (decrementStockGo products errors updated items).1 →
      p' ∈ products ∨ (0 ≤ p'.stock_quantity ∧
        p'.in_stock = decide (0 < p'.stock_quantity)) := by
  induction items with
  | nil => exact fun products errors updated p' hp' => Or.inl hp'
  | cons item rest ih =>
    intro products errors updated p' hp'
    unfold decrementStockGo at hp'
    cases h : single (products.filter (fun p => p.id = item.product_id)) with
    | none =>
      rw [h] at hp'
      exact ih _ _ _ _ hp'
    | some p =>
      rw [h] at hp'
      dsimp only at hp'
      rcases ih _ _ _ _ hp' with hmem | hgood
      · simp only [List.mem_map] at hmem
        obtain ⟨q, hq, rfl⟩ := hmem
        by_cases hid : q.id = item.product_id
        · rw [if_pos hid]
          exact Or.inr ⟨le_max_left _ _, rfl⟩
        · rw [if_neg hid]
          exact Or.inl hq
      · exact Or.inr hgood

/-- Every product row after a `restoreStock` pass is either untouched or has
`in_stock` set to the constant `true`. -/
lemma restoreStockGo_mem (items : List StockItem) :
    ∀ (products : List Product) (errors updated : List String) (p' : Product),
      p' ∈ (restoreStockGo products errors updated items).1 →
      p' ∈ products ∨ p'.in_stock = true := by
  induction items with
  | nil => exact fun products errors updated p' hp' => Or.inl hp'
  | cons item rest ih =>
    intro products errors updated p' hp'
    unfold restoreStockGo at hp'
    cases h : single (products.filter (fun p => p.id = item.product_id)) with
    | none =>
      rw [h] at hp'
      exact ih _ _ _ _ hp'
    | some p =>
      rw [h] at hp'
      dsimp only at hp'
      rcases ih _ _ _ _ hp' with hmem | hgood
      · simp only [List.mem_map] at hmem
        obtain ⟨q, hq, rfl⟩ := hmem
        by_cases hid : q.id = item.product_id
        · rw [if_pos hid]
          exact Or.inr rfl
        · rw [if_neg hid]
          exact Or.inl hq
      · exact Or.inr hgood

/-- Single-item `decrementStock` on a uniquely matched product: the row is
written back with `newStock = max(0, current - quantity)` and
`in_stock = newStock > 0`. -/
lemma decrementStock_single_item (products : List Product) (it : StockItem)
    (p : Product) (h : products.filter (fun q => q.id = it.product_id) = [p]) :
    (decrementStock products [it]).1 = products.map (fun q =>
      if q.id = it.product_id then
        { q with stock_quantity := max 0 (p.stock_quantity - it.quantity),
                 in_stock := decide (0 < max 0 (p.stock_quantity - it.quantity)) }
      else q) := by
  have hs : single (products.filter (fun q => q.id = it.product_id)) = some p := by
    rw [h]; rfl
  unfold decrementStock decrementStockGo
  rw [hs]
  rfl

/-- Single-item `restoreStock` on a uniquely matched product: the row is
written back with `newStock = current + quantity` and the constant
`in_stock = true`. -/
lemma restoreStock_single_item (products : List Product) (it : StockItem)
    (p : Product) (h : products.filter (fun q => q.id = it.product_id) = [p]) :
    (restoreStock products [it]).1 = products.map (fun q =>
      if q.id = it.product_id then
        { q with stock_quantity := p.stock_quantity + it.quantity,
                 in_stock := true }
      else q) := by
  have hs : single (products.filter (fun q => q.id = it.product_id)) = some p := by
    rw [h]; rfl
  unfold restoreStock restoreStockGo
  rw [hs]
  rfl

/-- Every rejection produced by the shared creation-request validation is a
400. -/
lemma validateCreateRequest_status {req : CreateOrderRequest} {r : ApiResponse}
    (h : validateCreateRequest req = some r) : r.status = 400 := by
  unfold validateCreateRequest at h
  repeat' split at h
  all_goals (cases h <;> rfl)

/-! ## The claims -/

/-- C1: paid-status monotonicity — once every row of an order is `paid`, no
Verifier call (any payload) and no webhook event (captured or failed, any
payload, whether dispatched directly or through the webhook route) changes
its `payment_status`; in particular a `payment.failed` webhook for an
already-paid order writes no failure metadata and leaves the database
unchanged. -/
theorem C1_paid_status_monotonic :
    (∀ (hmac : String → String → String) (keySecret : String)
       (user : Option String) (now : String) (db : DB) (req : VerifyRequest)
       (oid : String), orderPaid db oid →
       orderPaid (verifyPaymentPOST hmac keySecret user now db req).1 oid)
    ∧ (∀ (now : String) (db : DB) (payload : WebhookPayload) (oid : String),
        orderPaid db oid →
        orderPaid (handlePaymentCaptured now db payload) oid)
    ∧ (∀ (now : String) (db : DB) (payload : WebhookPayload) (oid : String),
        orderPaid db oid →
        orderPaid (handlePaymentFailed now db payload) oid)
    ∧ (∀ (hmac : String → String → String)
       (parse : String → Option WebhookPayload) (webhookSecret : Option String)
       (now : String) (db : DB) (rawBody : String)
       (sigHeader : Option String) (oid : String), orderPaid db oid →
       orderPaid (webhookPOST hmac parse webhookSecret now db rawBody sigHeader).1 oid)
    ∧ (∀ (now : String) (db : DB) (payload : WebhookPayload)
       (payment : PaymentEntity) (order : Order),
        payload.payment = some payment →
        selectOrderByRzpId db payment.order_id = some order →
        order.payment_status = some "paid" →
        handlePaymentFailed now db payload = db) :=
  ⟨verify_preserves_paid, captured_preserves_paid, failed_preserves_paid,
   webhook_preserves_paid, failed_noop_on_paid⟩

/-- Witness for C1 on the concrete already-paid database. -/
theorem C1_paid_status_monotonic_witness :
    orderPaid dbPaidW "ord1" ∧
    orderPaid (verifyPaymentPOST hmacModel "secret" (some "user1") "t1"
      dbPaidW reqW).1 "ord1" ∧
    orderPaid (handlePaymentCaptured "t1" dbPaidW payloadCapturedW) "ord1" ∧
    orderPaid (handlePaymentFailed "t1" dbPaidW payloadFailedW) "ord1" ∧
    handlePaymentFailed "t1" dbPaidW payloadFailedW = dbPaidW :=
  ⟨by decide,
   C1_paid_status_monotonic.1 hmacModel "secret" (some "user1") "t1" dbPaidW
     reqW "ord1" (by decide),
   C1_paid_status_monotonic.2.1 "t1" dbPaidW payloadCapturedW "ord1" (by decide),
   C1_paid_status_monotonic.2.2.1 "t1" dbPaidW payloadFailedW "ord1" (by decide),
   C1_paid_status_monotonic.2.2.2.2 "t1" dbPaidW payloadFailedW paymentW
     paidOrderW rfl (by decide) (by decide)⟩

/-- C2: an authenticated verify request for an existing, caller-owned order
with matching stored gateway intent id, not yet paid, whose signature equals
`HMAC-SHA256(secret, intentId ++ "|" ++ paymentId)`, succeeds (HTTP 200 with
the order id) and leaves the order with `payment_status = 'paid'`,
`status = 'processing'`, the gateway payment id and signature stored, and
verification metadata carrying the timestamp. -/
theorem C2_valid_signature_confirms (hmac : String → String → String)
    (keySecret uid now : String) (db : DB) (req : VerifyRequest) (order : Order)
    (hfields : ¬(req.razorpay_order_id = "" ∨ req.razorpay_payment_id = "" ∨
      req.razorpay_signature = "" ∨ req.order_id = ""))
    (hord : selectOrderById db req.order_id = some order)
    (howner : order.user_id = some uid)
    (hrzp : order.razorpay_order_id = some req.razorpay_order_id)
    (hnotpaid : ¬order.payment_status = some "paid")
    (hsig : hmac keySecret (req.razorpay_order_id ++ "|" ++ req.razorpay_payment_id) =
      req.razorpay_signature) :
    (verifyPaymentPOST hmac keySecret (some uid) now db req).2.status = 200 ∧
    (verifyPaymentPOST hmac keySecret (some uid) now db req).2.success = true ∧
    (verifyPaymentPOST hmac keySecret (some uid) now db req).2.order_id =
      some req.order_id ∧
    (∃ o ∈ (verifyPaymentPOST hmac keySecret (some uid) now db req).1.orders,
      o.id = req.order_id) ∧
    ∀ o ∈ (verifyPaymentPOST hmac keySecret (some uid) now db req).1.orders,
      o.id = req.order_id →
        o.payment_status = some "paid" ∧ o.status = "processing" ∧
        o.razorpay_payment_id = some req.razorpay_payment_id ∧
        o.razorpay_signature = some req.razorpay_signature ∧
        o.payment_metadata = PayMeta.verified now "signature" := by
  have he := verify_valid_eq hmac keySecret uid now db req order hfields hord
    howner hrzp hnotpaid hsig
  obtain ⟨hmem, hpred⟩ := single_filter hord
  have hid : order.id = req.order_id := by simpa using hpred
  rw [he]
  refine ⟨rfl, rfl, rfl, ?_, ?_⟩
  · refine ⟨verifiedRow req now order, ?_, by simp [hid]⟩
    have : (if order.id = req.order_id then verifiedRow req now order else order) ∈
        (updateOrders db req.order_id (verifiedRow req now)).orders := by
      simp only [updateOrders_orders]
      exact List.mem_map_of_mem _ hmem
    rw [if_pos hid] at this
    show _ ∈ ((if (selectOrderItems db req.order_id).isEmpty then _ else _) : DB).orders
    rw [DB_if_products_orders]
    exact this
  · intro o ho hoid
    rw [show ((if (selectOrderItems db req.order_id).isEmpty then
        updateOrders db req.order_id (verifiedRow req now)
      else
        { updateOrders db req.order_id (verifiedRow req now) with
          products := (decrementStock db.products
            (toStockItems (selectOrderItems db req.order_id))).1 } : DB)).orders =
        (updateOrders db req.order_id (verifiedRow req now)).orders from
      DB_if_products_orders _ _] at ho
    simp only [updateOrders_orders, List.mem_map] at ho
    obtain ⟨a, ha, rfl⟩ := ho
    by_cases hai : a.id = req.order_id
    · rw [if_pos hai]
      exact ⟨rfl, rfl, rfl, rfl, rfl⟩
    · rw [if_neg hai] at hoid
      exact absurd hoid hai

/-- Witness for C2 on the concrete pending database with a valid signature. -/
theorem C2_valid_signature_confirms_witness :
    (verifyPaymentPOST hmacModel "secret" (some "user1") "t1" dbPendingW reqW).2.status
      = 200 ∧
    (verifyPaymentPOST hmacModel "secret" (some "user1") "t1" dbPendingW reqW).2.success
      = true :=
  ⟨(C2_valid_signature_confirms hmacModel "secret" "user1" "t1" dbPendingW reqW
      orderW (by decide) (by decide) (by decide) (by decide) (by decide)
      (by decide)).1,
   (C2_valid_signature_confirms hmacModel "secret" "user1" "t1" dbPendingW reqW
      orderW (by decide) (by decide) (by decide) (by decide) (by decide)
      (by decide)).2.1⟩

/-- C3: under the same gates but with a signature that differs from the
recomputed HMAC, the Verifier answers a generic 400, persists
`payment_status = 'failed'` with failure metadata, and does not touch the
products table (the Inventory Adjuster is not invoked). -/
theorem C3_invalid_signature_rejects (hmac : String → String → String)
    (keySecret uid now : String) (db : DB) (req : VerifyRequest) (order : Order)
    (hfields : ¬(req.razorpay_order_id = "" ∨ req.razorpay_payment_id = "" ∨
      req.razorpay_signature = "" ∨ req.order_id = ""))
    (hord : selectOrderById db req.order_id = some order)
    (howner : order.user_id = some uid)
    (hrzp : order.razorpay_order_id = some req.razorpay_order_id)
    (hnotpaid : ¬order.payment_status = some "paid")
    (hsig : hmac keySecret (req.razorpay_order_id ++ "|" ++ req.razorpay_payment_id) ≠
      req.razorpay_signature) :
    (verifyPaymentPOST hmac keySecret (some uid) now db req).2 =
      errResponse 400 "Payment verification failed" ∧
    (∃ o ∈ (verifyPaymentPOST hmac keySecret (some uid) now db req).1.orders,
      o.id = req.order_id) ∧
    (∀ o ∈ (verifyPaymentPOST hmac keySecret (some uid) now db req).1.orders,
      o.id = req.order_id →
        o.payment_status = some "failed" ∧
        o.payment_metadata = PayMeta.verificationFailed req.razorpay_payment_id
          "Signature verification failed" now) ∧
    (verifyPaymentPOST hmac keySecret (some uid) now db req).1.products =
      db.products ∧
    (verifyPaymentPOST hmac keySecret (some uid) now db req).1.orderItems =
      db.orderItems := by
  have he := verify_invalid_eq hmac keySecret uid now db req order hfields hord
    howner hrzp hnotpaid hsig
  obtain ⟨hmem, hpred⟩ := single_filter hord
  have hid : order.id = req.order_id := by simpa using hpred
  rw [he]
  refine ⟨rfl, ?_, ?_, rfl, rfl⟩
  · refine ⟨verifyFailedRow req now order, ?_, by simp [hid]⟩
    simp only [updateOrders_orders]
    have : (if order.id = req.order_id then verifyFailedRow req now order
        else order) ∈ db.orders.map
          (fun o => if o.id = req.order_id then verifyFailedRow req now o else o) :=
      List.mem_map_of_mem _ hmem
    rw [if_pos hid] at this
    exact this
  · intro o ho hoid
    simp only [updateOrders_orders, List.mem_map] at ho
    obtain ⟨a, ha, rfl⟩ := ho
    by_cases hai : a.id = req.order_id
    · rw [if_pos hai]
      exact ⟨rfl, rfl⟩
    · rw [if_neg hai] at hoid
      exact absurd hoid hai

/-- Witness for C3 on the concrete pending database with a forged signature. -/
theorem C3_invalid_signature_rejects_witness :
    (verifyPaymentPOST hmacModel "secret" (some "user1") "t1" dbPendingW reqBadW).2 =
      errResponse 400 "Payment verification failed" ∧
    (verifyPaymentPOST hmacModel "secret" (some "user1") "t1" dbPendingW reqBadW).1.products
      = dbPendingW.products :=
  ⟨(C3_invalid_signature_rejects hmacModel "secret" "user1" "t1" dbPendingW
      reqBadW orderW (by decide) (by decide) (by decide) (by decide) (by decide)
      (by decide)).1,
   (C3_invalid_signature_rejects hmacModel "secret" "user1" "t1" dbPendingW
      reqBadW orderW (by decide) (by decide) (by decide) (by decide) (by decide)
      (by decide)).2.2.2.1⟩

/-- C4: Verifier idempotence.  (a) On an order already `paid`, a verify call
returns the immediate success acknowledgment and changes nothing — for every
HMAC function and every submitted signature, so the signature is not
consulted and the Inventory Adjuster does not run.  (b) Running the Verifier
twice with the same valid payload succeeds both times, the second run leaves
the state of the first run untouched (stock decremented at most once), and
the order is `paid` after both. -/
theorem C4_verifier_idempotent :
    (∀ (hmac : String → String → String) (keySecret uid now : String) (db : DB)
       (req : VerifyRequest) (order : Order),
      ¬(req.razorpay_order_id = "" ∨ req.razorpay_payment_id = "" ∨
        req.razorpay_signature = "" ∨ req.order_id = "") →
      selectOrderById db req.order_id = some order →
      order.user_id = some uid →
      order.razorpay_order_id = some req.razorpay_order_id →
      order.payment_status = some "paid" →
      verifyPaymentPOST hmac keySecret (some uid) now db req =
        (db, { status := 200, success := true,
               message := some "Payment already verified",
               order_id := some req.order_id }))
    ∧ (∀ (hmac : String → String → String) (keySecret uid now now2 : String)
       (db : DB) (req : VerifyRequest) (order : Order),
      ¬(req.razorpay_order_id = "" ∨ req.razorpay_payment_id = "" ∨
        req.razorpay_signature = "" ∨ req.order_id = "") →
      selectOrderById db req.order_id = some order →
      order.user_id = some uid →
      order.razorpay_order_id = some req.razorpay_order_id →
      ¬order.payment_status = some "paid" →
      hmac keySecret (req.razorpay_order_id ++ "|" ++ req.razorpay_payment_id) =
        req.razorpay_signature →
      (verifyPaymentPOST hmac keySecret (some uid) now db req).2.success = true ∧
      (verifyPaymentPOST hmac keySecret (some uid) now2
        (verifyPaymentPOST hmac keySecret (some uid) now db req).1 req).2.success
        = true ∧
      (verifyPaymentPOST hmac keySecret (some uid) now2
        (verifyPaymentPOST hmac keySecret (some uid) now db req).1 req).1 =
        (verifyPaymentPOST hmac keySecret (some uid) now db req).1 ∧
      orderPaid (verifyPaymentPOST hmac keySecret (some uid) now2
        (verifyPaymentPOST hmac keySecret (some uid) now db req).1 req).1
        req.order_id) := by
  constructor
  · intro hmac keySecret uid now db req order hfields hord howner hrzp hpaid
    exact verify_already_paid hmac keySecret uid now db req order hfields hord
      howner hrzp hpaid
  · intro hmac keySecret uid now now2 db req order hfields hord howner hrzp
      hnotpaid hsig
    have he := verify_valid_eq hmac keySecret uid now db req order hfields hord
      howner hrzp hnotpaid hsig
    obtain ⟨hmem, hpred⟩ := single_filter hord
    have hid : order.id = req.order_id := by simpa using hpred
    have hordersD : (verifyPaymentPOST hmac keySecret (some uid) now db req).1.orders =
        (updateOrders db req.order_id (verifiedRow req now)).orders := by
      rw [he]
      exact DB_if_products_orders _ _
    have hsel : selectOrderById
        (verifyPaymentPOST hmac keySecret (some uid) now db req).1 req.order_id =
        some (verifiedRow req now order) := by
      rw [selectOrderById_congr req.order_id hordersD,
        selectOrderById_updateOrders db req.order_id (verifiedRow req now)
          req.order_id (verifiedRow_id req now), hord]
      simp [hid]
    have he2 := verify_already_paid hmac keySecret uid now2
      (verifyPaymentPOST hmac keySecret (some uid) now db req).1 req
      (verifiedRow req now order) hfields hsel (by simpa using howner)
      (by simpa using hrzp) (by simp)
    refine ⟨by rw [he], by rw [he2], by rw [he2], ?_⟩
    rw [he2]
    exact orderPaid_congr_orders hordersD
      (orderPaid_updateOrders_target (verifiedRow_payment_status req now))

/-- Witness for C4: the double call on the pending database and the
short-circuit on the paid database. -/
theorem C4_verifier_idempotent_witness :
    verifyPaymentPOST hmacModel "secret" (some "user1") "t1" dbPaidW reqW =
      (dbPaidW, { status := 200, success := true,
                  message := some "Payment already verified",
                  order_id := some "ord1" }) ∧
    (verifyPaymentPOST hmacModel "secret" (some "user1") "t2"
      (verifyPaymentPOST hmacModel "secret" (some "user1") "t1" dbPendingW reqW).1
      reqW).1 =
      (verifyPaymentPOST hmacModel "secret" (some "user1") "t1" dbPendingW reqW).1 :=
  ⟨C4_verifier_idempotent.1 hmacModel "secret" "user1" "t1" dbPaidW reqW
     paidOrderW (by decide) (by decide) (by decide) (by decide) (by decide),
   (C4_verifier_idempotent.2 hmacModel "secret" "user1" "t1" "t2" dbPendingW reqW
     orderW (by decide) (by decide) (by decide) (by decide) (by decide)
     (by decide)).2.2.1⟩

/-- C5: out-of-order convergence.  For a pending order with a validly signed
`payment.captured` webhook and a validly signed verify payload for the same
order, webhook-then-verifier and verifier-then-webhook end with the same
`payment_status = 'paid'` / `status = 'processing'` order state and the same
products table, equal to a single application of the stock decrement over the
order's items (each ordered product decremented exactly once by its ordered
quantity, clamped at zero). -/
theorem C5_out_of_order_convergence (hmacV : String → String → String)
    (keySecret uid nowV : String) (hmacW : String → String → String)
    (parse : String → Option WebhookPayload) (whSecret nowW : String)
    (rawBody signature : String) (db : DB) (req : VerifyRequest) (order : Order)
    (payload : WebhookPayload) (payment : PaymentEntity)
    (hfields : ¬(req.razorpay_order_id = "" ∨ req.razorpay_payment_id = "" ∨
      req.razorpay_signature = "" ∨ req.order_id = ""))
    (hord : selectOrderById db req.order_id = some order)
    (howner : order.user_id = some uid)
    (hrzp : order.razorpay_order_id = some req.razorpay_order_id)
    (hpending : order.payment_status = some "pending")
    (hsig : hmacV keySecret (req.razorpay_order_id ++ "|" ++ req.razorpay_payment_id) =
      req.razorpay_signature)
    (hwsig : hmacW whSecret rawBody = signature)
    (hparse : parse rawBody = some payload)
    (hev : payload.event = "payment.captured")
    (hpay : payload.payment = some payment)
    (hordR : selectOrderByRzpId db payment.order_id = some order) :
    let dbA := (verifyPaymentPOST hmacV keySecret (some uid) nowV
      (webhookPOST hmacW parse (some whSecret) nowW db rawBody (some signature)).1
      req).1
    let dbB := (webhookPOST hmacW parse (some whSecret) nowW
      (verifyPaymentPOST hmacV keySecret (some uid) nowV db req).1 rawBody
      (some signature)).1
    (∀ o ∈ dbA.orders, o.id = req.order_id →
      o.payment_status = some "paid" ∧ o.status = "processing") ∧
    (∀ o ∈ dbB.orders, o.id = req.order_id →
      o.payment_status = some "paid" ∧ o.status = "processing") ∧
    dbA.products = dbB.products ∧
    dbA.products = (if (selectOrderItems db req.order_id).isEmpty then db.products
      else (decrementStock db.products
        (toStockItems (selectOrderItems db req.order_id))).1) := by
  obtain ⟨hmem, hpred⟩ := single_filter hord
  have hid : order.id = req.order_id := by simpa using hpred
  have hnotpaid : ¬order.payment_status = some "paid" := by
    rw [hpending]; simp
  -- Path A: webhook first, then verifier (short-circuits on `paid`)
  have heW := webhookPOST_captured hmacW parse whSecret nowW db rawBody signature
    payload hwsig hparse hev
  have heC := captured_eq nowW db payload payment order hpay hordR hnotpaid
  have hordersA : (webhookPOST hmacW parse (some whSecret) nowW db rawBody
      (some signature)).1.orders =
      (updateOrders db order.id (capturedRow payment nowW)).orders := by
    rw [heW]
    dsimp only
    rw [heC]
    exact DB_if_products_orders _ _
  have hselA : selectOrderById (webhookPOST hmacW parse (some whSecret) nowW db
      rawBody (some signature)).1 req.order_id =
      some (capturedRow payment nowW order) := by
    rw [selectOrderById_congr req.order_id hordersA,
      selectOrderById_updateOrders db order.id (capturedRow payment nowW)
        req.order_id (capturedRow_id payment nowW), hord]
    simp [hid]
  have heV2 := verify_already_paid hmacV keySecret uid nowV
    (webhookPOST hmacW parse (some whSecret) nowW db rawBody (some signature)).1
    req (capturedRow payment nowW order) hfields hselA (by simpa using howner)
    (by simpa using hrzp) (by simp)
  -- Path B: verifier first, then webhook (skips on `paid`)
  have heV := verify_valid_eq hmacV keySecret uid nowV db req order hfields hord
    howner hrzp hnotpaid hsig
  have hordersB : (verifyPaymentPOST hmacV keySecret (some uid) nowV db req).1.orders =
      (updateOrders db req.order_id (verifiedRow req nowV)).orders := by
    rw [heV]
    exact DB_if_products_orders _ _
  have hselB : selectOrderByRzpId
      (verifyPaymentPOST hmacV keySecret (some uid) nowV db req).1
      payment.order_id = some (verifiedRow req nowV order) := by
    rw [selectOrderByRzpId_congr payment.order_id hordersB,
      selectOrderByRzpId_updateOrders db req.order_id (verifiedRow req nowV)
        payment.order_id (verifiedRow_rzp req nowV), hordR]
    simp [hid]
  have heW2 := webhookPOST_captured hmacW parse whSecret nowW
    (verifyPaymentPOST hmacV keySecret (some uid) nowV db req).1 rawBody
    signature payload hwsig hparse hev
  have heC2 := captured_noop_on_paid nowW
    (verifyPaymentPOST hmacV keySecret (some uid) nowV db req).1 payload payment
    (verifiedRow req nowV order) hpay hselB (by simp)
  -- assemble the four conclusions
  have hprodA : (verifyPaymentPOST hmacV keySecret (some uid) nowV
      (webhookPOST hmacW parse (some whSecret) nowW db rawBody (some signature)).1
      req).1.products =
      (if (selectOrderItems db req.order_id).isEmpty then db.products
       else (decrementStock db.products
         (toStockItems (selectOrderItems db req.order_id))).1) := by
    rw [heV2]
    dsimp only
    rw [heW]
    dsimp only
    rw [heC, DB_if_products_products]
    simp only [updateOrders_products]
    rw [hid]
  have hprodB : (webhookPOST hmacW parse (some whSecret) nowW
      (verifyPaymentPOST hmacV keySecret (some uid) nowV db req).1 rawBody
      (some signature)).1.products =
      (if (selectOrderItems db req.order_id).isEmpty then db.products
       else (decrementStock db.products
         (toStockItems (selectOrderItems db req.order_id))).1) := by
    rw [heW2]
    dsimp only
    rw [heC2, heV]
    dsimp only
    rw [DB_if_products_products]
    simp only [updateOrders_products]
  dsimp only
  refine ⟨?_, ?_, ?_, hprodA⟩
  · intro o ho hoid
    rw [heV2] at ho
    dsimp only at ho
    rw [hordersA] at ho
    simp only [updateOrders_orders, List.mem_map] at ho
    obtain ⟨a, ha, rfl⟩ := ho
    by_cases hai : a.id = order.id
    · rw [if_pos hai]
      exact ⟨rfl, rfl⟩
    · rw [if_neg hai] at hoid
      rw [hid] at hai
      exact absurd hoid hai
  · intro o ho hoid
    rw [heW2] at ho
    dsimp only at ho
    rw [heC2] at ho
    rw [hordersB] at ho
    simp only [updateOrders_orders, List.mem_map] at ho
    obtain ⟨a, ha, rfl⟩ := ho
    by_cases hai : a.id = req.order_id
    · rw [if_pos hai]
      exact ⟨rfl, rfl⟩
    · rw [if_neg hai] at hoid
      exact absurd hoid hai
  · rw [hprodA, hprodB]

/-- Witness for C5 on the concrete pending database: both orderings agree on
the products table. -/
theorem C5_out_of_order_convergence_witness :
    (verifyPaymentPOST hmacModel "secret" (some "user1") "t1"
      (webhookPOST hmacModel parseCapturedW (some "whsec") "t0" dbPendingW "raw"
        (some (hmacModel "whsec" "raw"))).1 reqW).1.products =
    (webhookPOST hmacModel parseCapturedW (some "whsec") "t0"
      (verifyPaymentPOST hmacModel "secret" (some "user1") "t1" dbPendingW reqW).1
      "raw" (some (hmacModel "whsec" "raw"))).1.products :=
  (C5_out_of_order_convergence hmacModel "secret" "user1" "t1" hmacModel
    parseCapturedW "whsec" "t0" "raw" (hmacModel "whsec" "raw") dbPendingW reqW
    orderW payloadCapturedW paymentW (by decide) (by decide) (by decide)
    (by decide) (by decide) (by decide) (by decide) (by decide) (by decide)
    (by decide) (by decide)).2.2.1

/-- C6 (amended): for every item list, `decrementStock` writes
`new_stock = max(0, current - quantity)` per item (never negative) together
with the derived flag `in_stock = new_stock > 0` — so after a decrement a
written row has `in_stock` false exactly when its stock is zero — while
`restoreStock` writes `new_stock = current + quantity` together with the
constant flag `in_stock = true` (which coincides with `new_stock > 0` only
when `new_stock > 0`, e.g. for every positive restored quantity). -/
theorem C6_inventory_floor_and_in_stock :
    (∀ (products : List Product) (items : List StockItem),
      ∀ p' ∈ (decrementStock products items).1,
        p' ∈ products ∨ (0 ≤ p'.stock_quantity ∧
          p'.in_stock = decide (0 < p'.stock_quantity)))
    ∧ (∀ (products : List Product) (items : List StockItem),
        ∀ p' ∈ (restoreStock products items).1,
          p' ∈ products ∨ p'.in_stock = true)
    ∧ (∀ (products : List Product) (it : StockItem) (p : Product),
        products.filter (fun q => q.id = it.product_id) = [p] →
        (decrementStock products [it]).1 = products.map (fun q =>
          if q.id = it.product_id then
            { q with stock_quantity := max 0 (p.stock_quantity - it.quantity),
                     in_stock := decide (0 < max 0 (p.stock_quantity - it.quantity)) }
          else q))
    ∧ (∀ (products : List Product) (it : StockItem) (p : Product),
        products.filter (fun q => q.id = it.product_id) = [p] →
        (restoreStock products [it]).1 = products.map (fun q =>
          if q.id = it.product_id then
            { q with stock_quantity := p.stock_quantity + it.quantity,
                     in_stock := true }
          else q)) := by
  refine ⟨?_, ?_, ?_, ?_⟩
  · exact fun products items p' hp' => decrementStockGo_mem items products [] [] p' hp'
  · exact fun products items p' hp' => restoreStockGo_mem items products [] [] p' hp'
  · exact fun products it p h => decrementStock_single_item products it p h
  · exact fun products it p h => restoreStock_single_item products it p h

/-- Witness for C6: two units decremented from a stock of five leave the
row at three units and in stock; one unit restored onto a zero-stock row
yields one unit and in stock. -/
theorem C6_inventory_floor_and_in_stock_witness :
    (decrementStock [productW] [{ product_id := "prod1", quantity := 2 }]).1 =
      [{ productW with stock_quantity := 3, in_stock := true }] ∧
    (restoreStock [{ productW with stock_quantity := 0, in_stock := false }]
        [{ product_id := "prod1", quantity := 1 }]).1 =
      [{ productW with stock_quantity := 1, in_stock := true }] :=
  ⟨(C6_inventory_floor_and_in_stock.2.2.1 [productW]
      { product_id := "prod1", quantity := 2 } productW (by decide)).trans (by decide),
   (C6_inventory_floor_and_in_stock.2.2.2 [{ productW with stock_quantity := 0, in_stock := false }]
      { product_id := "prod1", quantity := 1 }
      { productW with stock_quantity := 0, in_stock := false } (by decide)).trans (by decide)⟩

/-- Counterexample to C6 as stated: restoring a zero quantity onto a product
with zero stock leaves `stock_quantity = 0` but writes `in_stock = true`, so
after a restore `in_stock` is NOT always the derived flag `new_stock > 0`
(and is not false exactly when the stock is zero). -/
theorem C6_counterexample :
    ¬ (∀ p' ∈ (restoreStock
          [{ id := "prod1", name := "Ring", stock_quantity := 0, in_stock := false }]
          [{ product_id := "prod1", quantity := 0 }]).1,
        p'.in_stock = decide (0 < p'.stock_quantity)) := by
  decide

/-- Counterexample to C7 as stated: a request whose body is unparseable
(`JSON.parse` throws) but whose signature header is VALID is acknowledged
with HTTP 200 (`received: true` plus an error note) — not with a non-2xx
status as the claim requires for malformed payloads. -/
theorem C7_counterexample :
    (webhookPOST hmacModel parseNone (some "whsec") "t1" dbPendingW "not-json"
      (some (hmacModel "whsec" "not-json"))).2.status = 200 ∧
    (webhookPOST hmacModel parseNone (some "whsec") "t1" dbPendingW "not-json"
      (some (hmacModel "whsec" "not-json"))).2.received = true := by
  constructor <;> rfl

/-- C7 (amended): the webhook route returns non-2xx only for a missing
signature header (400), an unconfigured webhook secret (500), or a signature
mismatch (400); once the signature verifies, EVERY outcome — including an
unparseable body, which the catch block deliberately acknowledges to stop
retries, as well as order-not-found and unhandled event types — is a 200
acknowledgment. -/
theorem C7_webhook_status_policy (hmac : String → String → String)
    (parse : String → Option WebhookPayload) (webhookSecret : Option String)
    (now : String) (db : DB) (rawBody : String) (sigHeader : Option String) :
    (sigHeader = none →
      (webhookPOST hmac parse webhookSecret now db rawBody sigHeader).2.status = 400) ∧
    (∀ sig, sigHeader = some sig → webhookSecret = none →
      (webhookPOST hmac parse webhookSecret now db rawBody sigHeader).2.status = 500) ∧
    (∀ sig s, sigHeader = some sig → webhookSecret = some s →
      hmac s rawBody ≠ sig →
      (webhookPOST hmac parse webhookSecret now db rawBody sigHeader).2.status = 400) ∧
    (∀ sig s, sigHeader = some sig → webhookSecret = some s →
      hmac s rawBody = sig →
      (webhookPOST hmac parse webhookSecret now db rawBody sigHeader).2.status = 200 ∧
      (webhookPOST hmac parse webhookSecret now db rawBody sigHeader).2.received = true) := by
  refine ⟨?_, ?_, ?_, ?_⟩
  · intro h
    subst h
    rfl
  · intro sig hs hsec
    subst hs
    subst hsec
    rfl
  · intro sig s hs hsec hne
    subst hs
    subst hsec
    unfold webhookPOST
    dsimp only
    rw [if_pos hne]
    rfl
  · intro sig s hs hsec heq
    subst hs
    subst hsec
    unfold webhookPOST
    dsimp only
    rw [if_neg (not_not_intro heq)]
    cases hp : parse rawBody with
    | none =>
      exact ⟨rfl, rfl⟩
    | some payload =>
      exact ⟨rfl, rfl⟩

/-- Witness for C7 (amended) at concrete inputs: wrong signature gives 400;
valid signature with an unparseable body gives 200. -/
theorem C7_webhook_status_policy_witness :
    (webhookPOST hmacModel parseNone (some "whsec") "t1" dbPendingW "body"
      (some "wrong")).2.status = 400 ∧
    (webhookPOST hmacModel parseNone (some "whsec") "t1" dbPendingW "body"
      (some (hmacModel "whsec" "body"))).2.status = 200 :=
  ⟨(C7_webhook_status_policy hmacModel parseNone (some "whsec") "t1" dbPendingW
      "body" (some "wrong")).2.2.1 "wrong" "whsec" rfl rfl (by decide),
   ((C7_webhook_status_policy hmacModel parseNone (some "whsec") "t1" dbPendingW
      "body" (some (hmacModel "whsec" "body"))).2.2.2 (hmacModel "whsec" "body")
      "whsec" rfl rfl rfl).1⟩

/-- C8: if the gateway-side intent creation throws, the Initiator returns a
500 error and the database is untouched — no Order row and no Order Items
are persisted. -/
theorem C8_initiator_atomic_on_gateway_failure (uid freshId : String)
    (itemsInsertFails : Bool) (db : DB) (req : CreateOrderRequest)
    (hval : validateCreateRequest req = none) :
    createOrderPOST (some uid) none itemsInsertFails freshId db req =
      (db, errResponse 500 "Internal server error") := by
  unfold createOrderPOST
  dsimp only
  rw [hval]

/-- Witness for C8 at a concrete valid request. -/
theorem C8_initiator_atomic_on_gateway_failure_witness :
    validateCreateRequest createReqW = none ∧
    createOrderPOST (some "user1") none false "ord9" dbPendingW createReqW =
      (dbPendingW, errResponse 500 "Internal server error") :=
  ⟨by decide,
   C8_initiator_atomic_on_gateway_failure "user1" "ord9" false dbPendingW
     createReqW (by decide)⟩

/-- C9: every authenticated COD request whose amount strictly exceeds the
50,000 ceiling is rejected with a 400 and leaves the database unchanged —
no Order, no Order Items, no stock change. -/
theorem C9_cod_ceiling (uid freshId : String) (itemsInsertFails : Bool)
    (db : DB) (req : CreateOrderRequest) (h : req.total_amount > COD_LIMIT) :
    (codPOST (some uid) itemsInsertFails freshId db req).1 = db ∧
    (codPOST (some uid) itemsInsertFails freshId db req).2.status = 400 := by
  unfold codPOST
  dsimp only
  cases hval : validateCreateRequest req with
  | some rejection =>
    exact ⟨rfl, validateCreateRequest_status hval⟩
  | none =>
    dsimp only
    rw [if_pos h]
    exact ⟨rfl, rfl⟩

/-- C10 (implicit): on both creation paths a failed order-items insert is
non-fatal — the handler still answers success with the order id, the Order
row is persisted, yet zero Order Items rows exist for it; on the COD path the
stock for the submitted items is still decremented. -/
theorem C10_items_insert_failure_nonfatal (uid rzpId freshId : String)
    (db : DB) (req : CreateOrderRequest)
    (hval : validateCreateRequest req = none)
    (hamt : ¬req.total_amount > COD_LIMIT)
    (hfresh : ∀ it ∈ db.orderItems, ¬it.order_id = freshId) :
    ((createOrderPOST (some uid) (some rzpId) true freshId db req).2.success = true ∧
     (createOrderPOST (some uid) (some rzpId) true freshId db req).2.order_id =
       some freshId ∧
     (∃ o ∈ (createOrderPOST (some uid) (some rzpId) true freshId db req).1.orders,
       o.id = freshId) ∧
     ((createOrderPOST (some uid) (some rzpId) true freshId db req).1.orderItems.filter
       (fun it => it.order_id = freshId)) = [])
    ∧ ((codPOST (some uid) true freshId db req).2.success = true ∧
       (codPOST (some uid) true freshId db req).2.order_id = some freshId ∧
       (∃ o ∈ (codPOST (some uid) true freshId db req).1.orders, o.id = freshId) ∧
       ((codPOST (some uid) true freshId db req).1.orderItems.filter
         (fun it => it.order_id = freshId)) = [] ∧
       (codPOST (some uid) true freshId db req).1.products =
         (decrementStock db.products (req.items.map (fun it =>
           { product_id := it.product_id, quantity := it.quantity }))).1) := by
  have hnil : db.orderItems.filter (fun it => it.order_id = freshId) = [] :=
    List.filter_eq_nil_iff.mpr (by simpa using hfresh)
  unfold createOrderPOST codPOST
  dsimp only
  rw [hval]
  dsimp only
  rw [if_neg hamt, if_pos rfl, if_pos rfl]
  refine ⟨⟨rfl, rfl, ?_, hnil⟩, rfl, rfl, ?_, hnil, rfl⟩
  · exact ⟨_, List.mem_append_right _ (List.mem_singleton_self _), rfl⟩
  · exact ⟨_, List.mem_append_right _ (List.mem_singleton_self _), rfl⟩

/-- Witness for C10 at a concrete valid request with a fresh order id. -/
theorem C10_items_insert_failure_nonfatal_witness :
    validateCreateRequest createReqW = none ∧
    (codPOST (some "user1") true "ord9" dbPendingW createReqW).2.success = true ∧
    ((codPOST (some "user1") true "ord9" dbPendingW createReqW).1.orderItems.filter
      (fun it => it.order_id = "ord9")) = [] :=
  ⟨by decide,
   (C10_items_insert_failure_nonfatal "user1" "rzp9" "ord9" dbPendingW createReqW
     (by decide) (by decide) (by decide)).2.1,
   (C10_items_insert_failure_nonfatal "user1" "rzp9" "ord9" dbPendingW createReqW
     (by decide) (by decide) (by decide)).2.2.2.2.1⟩

/-- Witness for C9 at a concrete over-ceiling request. -/
theorem C9_cod_ceiling_witness :
    codBigReqW.total_amount > COD_LIMIT ∧
    (codPOST (some "user1") false "ord9" dbPendingW codBigReqW).1 = dbPendingW ∧
    (codPOST (some "user1") false "ord9" dbPendingW codBigReqW).2.status = 400 :=
  ⟨by decide,
   (C9_cod_ceiling "user1" "ord9" false dbPendingW codBigReqW (by decide)).1,
   (C9_cod_ceiling "user1" "ord9" false dbPendingW codBigReqW (by decide)).2⟩

end Yadu
